import Mathlib

/-!
Shallow embedding of the nettikone-tori-discord-notifications repository
(src/Lib.py, src/Bot.py, src/Helper.py) and verification of the spec's
claims about it.

Conventions of the embedding:
* Python strings are Lean `String`; Python `None` for an optional string
  field is `Option.none`.
* `BeautifulSoup`'s per-selector lookup results on one listing-card
  fragment are modelled as an `HtmlFragment` record of `Option String`
  fields: `none` means the selector found nothing, `some s` means the
  element was found and `s` is its (already stripped) text / attribute.
* HTTP requests are modelled by an `HttpResult` value: `err` is a raised
  `requests.exceptions.RequestException` (connection failure, timeout),
  `ok status body` is a returned response with its status code and the
  parsed body.
* A Python function from which an exception can escape is embedded as
  returning `Except Unit _`; `Except.error ()` marks an escaping
  exception.
* The SQLite store is modelled by its observable content in the code:
  `get_all_links()` returns the set of stored links, modelled as a
  `List String` queried with membership.
-/

namespace NT

/-- The sentinel used by `Listing.__init__` for absent fields. -/
def sentinel : String := "N/A"

/-- The base URL prefixed to relative hrefs in `Listing.__init__`
(html branch, src/Lib.py line 67). -/
def toriBase : String := "https://autot.tori.fi"

/-- The normalized listing record (src/Lib.py, class `Listing`).
`img_url` is `Option String` because the json construction path can
store Python `None` there; the html path always stores a string. -/
structure Listing where
  title : String
  price : String
  details : String
  link : String
  img_url : Option String
deriving Repr, DecidableEq

/-- What `BeautifulSoup.find` yields on one listing-card fragment for
each of the five selectors used in `Listing.__init__` (html branch,
src/Lib.py lines 50-74). `none` = element absent; for `link_element`
the payload is the stripped `href` attribute, for `img_element` the
`src` attribute, otherwise stripped text. -/
structure HtmlFragment where
  title_element : Option String
  price_element : Option String
  details_element : Option String
  link_element : Option String
  img_element : Option String
deriving Repr, DecidableEq

/-- `Listing.__init__` with `listing_type='html'` (src/Lib.py lines
50-74): each field independently falls back to the sentinel; the link
is prefixed with the base URL when found; the image lookup is wrapped
in try/except, falling back to the sentinel string. -/
def mkListingHtml (frag : HtmlFragment) : Listing where
  title := frag.title_element.getD sentinel
  price := frag.price_element.getD sentinel
  details := frag.details_element.getD sentinel
  link := match frag.link_element with
    | some href => toriBase ++ href
    | none => sentinel
  img_url := some (frag.img_element.getD sentinel)

/-- The `data` dict handed to `Listing.__init__` with
`listing_type='json'`. The outer `Option` on each field is key
presence (`data.get(k, default)`); for `img_url` the inner `Option`
is the stored value, which the caller in `scrape_listings` sets to
Python `None` when no image exists. -/
structure JsonData where
  title : Option String
  price : Option String
  details : Option String
  link : Option String
  img_url : Option (Option String)
deriving Repr, DecidableEq

/-- `Listing.__init__` with `listing_type='json'` (src/Lib.py lines
44-49): every field is `data.get(key, 'N/A')`; an absent key yields
the sentinel, a present key yields its stored value (possibly `None`
for `img_url`). -/
def mkListingJson (data : JsonData) : Listing where
  title := data.title.getD sentinel
  price := data.price.getD sentinel
  details := data.details.getD sentinel
  link := data.link.getD sentinel
  img_url := data.img_url.getD (some sentinel)

/-- `Listing.is_valid` (src/Lib.py lines 76-78):
`bool(self.title or self.link)` — Python truthiness of strings is
non-emptiness. -/
def Listing.is_valid (l : Listing) : Bool :=
  !l.title.isEmpty || !l.link.isEmpty

/-- One decoded element of the Nettikone API JSON array
(src/Lib.py lines 253-260): required fields `model`, `adUrl`, `id`;
`images` is `none` when the key is absent, otherwise the list of
`smallThumbnail.url` strings. -/
structure ApiItem where
  model : String
  adUrl : String
  id : Nat
  images : Option (List String)
deriving Repr, DecidableEq

/-- The `listing_data` dict built per item in
`NettikoneScraper.scrape_listings` (src/Lib.py lines 254-260):
title and details from `model`, link is `'' + adUrl`, price is
`str(id)`, and `img_url` is the first thumbnail url when `images`
is present and non-empty, else Python `None` (the key itself is
always present). -/
def listingDataOfItem (item : ApiItem) : JsonData where
  title := some item.model
  price := some (toString item.id)
  details := some item.model
  link := some ("" ++ item.adUrl)
  img_url := some (match item.images with
    | some (u :: _) => some u
    | _ => none)

/-- Outcome of one `requests` call: `err` is a raised
`RequestException` (connection failure / timeout), `ok` a response
with status code and parsed body. -/
inductive HttpResult (α : Type) where
  | err : HttpResult α
  | ok (status : Nat) (body : α) : HttpResult α
deriving Repr, DecidableEq

namespace ToriScraper

/-- `ToriScraper.scrape_url` (src/Lib.py lines 192-205), given the
store snapshot (`repository.get_all_links()`, constant during the
pass since nothing writes to the database inside it), the current
`self.new_listings` buffer and the result of `requests.get(url)`.
The get is not wrapped in try/except, so `HttpResult.err` makes the
exception escape (`Except.error ()`). On status 200 it appends, for
each fragment in page order, the listing when it `is_valid()` and its
link is not among the stored links; there is no check against
listings appended earlier in the same pass. On any other status it
logs and leaves the buffer unchanged. -/
def scrape_url (store : List String) (buf : List Listing)
    (response : HttpResult (List HtmlFragment)) :
    Except Unit (List Listing) :=
  match response with
  | .err => .error ()
  | .ok status frags =>
      if status == 200 then
        .ok (frags.foldl (fun acc frag =>
          let listing := mkListingHtml frag
          if listing.is_valid && !(store.contains listing.link) then
            acc ++ [listing]
          else acc) buf)
      else
        .ok buf

end ToriScraper

namespace NettikoneScraper

/-- `NettikoneScraper.scrape_listings` (src/Lib.py lines 228-269),
given the store snapshot, the current `self.new_listings` buffer and
the result of the API request. The whole body is wrapped in
`try/except requests.exceptions.RequestException`, so `err` is
caught (buffer unchanged). On status 200 it builds one listing per
item, then — after the loop, not inside it — tests only the loop
variable `listing`, i.e. the LAST item's listing, and when that one
is valid and unseen it extends the buffer with ALL listings. On an
empty item list the loop variable is unbound and the resulting
`NameError` is not a `RequestException`, so it escapes
(`Except.error ()`). Non-200 statuses are logged, buffer unchanged. -/
def scrape_listings (store : List String) (buf : List Listing)
    (response : HttpResult (List ApiItem)) :
    Except Unit (List Listing) :=
  match response with
  | .err => .ok buf
  | .ok status items =>
      if status == 200 then
        let listings := items.map (fun item =>
          mkListingJson (listingDataOfItem item))
        match listings.getLast? with
        | none => .error ()
        | some lastListing =>
            if lastListing.is_valid
                && !(store.contains lastListing.link) then
              .ok (buf ++ listings)
            else
              .ok buf
      else
        .ok buf

end NettikoneScraper

/-- `get_nettikone_api_token` (src/Lib.py lines 272-303), given the
outcome of the token POST. The body of the decoded token response is
modelled as `Option String`: `some tok` when the json has an
`access_token` key with value `tok`, `none` otherwise. The whole body
is wrapped in `try/except RequestException`: a raised request error
is logged and the function falls off the end, returning Python
`None`; `raise_for_status()` raises `HTTPError` (a
`RequestException`) exactly when the status is in 400..599, also
caught; otherwise the function returns the access token when present
and logs and returns `None` when absent. -/
def get_nettikone_api_token (response : HttpResult (Option String)) :
    Option String :=
  match response with
  | .err => none
  | .ok status accessToken =>
      if 400 ≤ status ∧ status < 600 then none
      else
        match accessToken with
        | some tok => some tok
        | none => none

/-- One entry of `nettimakes.json` as used by src/Helper.py: a dict
with a `name` and an `id`. -/
structure Make where
  name : String
  id : Int
deriving Repr, DecidableEq

/-- Python `str.lower` on one character: basic-latin upper case maps
to lower case, everything else is unchanged (the make names are
ASCII). -/
def lowerChar (c : Char) : Char :=
  if 65 ≤ c.toNat ∧ c.toNat ≤ 90 then Char.ofNat (c.toNat + 32) else c

/-- Python `str.lower` on a string, characterwise. -/
def lower (s : String) : String :=
  ⟨s.data.map lowerChar⟩

/-- `get_make_id` (src/Helper.py lines 15-29): scans the make table
in order and returns the id of the first entry whose name matches the
given name case-insensitively, `None` when no entry matches. The
ambient module-level `netti_makes` table is passed explicitly. -/
def get_make_id : List Make → String → Option Int
  | [], _ => none
  | m :: rest, make_name =>
      if lower m.name = lower make_name then some m.id
      else get_make_id rest make_name

/-- `get_make_ids` (src/Helper.py lines 32-42): a list comprehension
mapping `get_make_id` over the names. -/
def get_make_ids (netti_makes : List Make) (make_names : List String) :
    List (Option Int) :=
  make_names.map (get_make_id netti_makes)

/-- The two listing sources of src/Bot.py. -/
inductive Source where
  | nettikone : Source
  | tori : Source
deriving Repr, DecidableEq

/-- Observable events of one execution of `scrape_and_notify`
(src/Bot.py lines 66-103): a scraper's network call, one notification
sent to the channel, and a `save_listings` commit. -/
inductive Event where
  | scrape (s : Source) : Event
  | notify (s : Source) (l : Listing) : Event
  | commit (s : Source) : Event
deriving Repr, DecidableEq

/-- `ScraperBase.save_listings` (src/Lib.py lines 165-172): adds every
buffered listing to a session, commits, and clears the buffer. The
store is observed through `get_all_links`, so the commit is modelled
as appending the buffered links; the cleared buffer is returned. -/
def save_listings (store : List String) (buf : List Listing) :
    List String × List Listing :=
  (store ++ buf.map Listing.link, [])

/-- Per-tick mutable state touched by `scrape_and_notify`: each
scraper's store content (as link sets) and `new_listings` buffer.
The two scrapers are constructed with the same default database, but
each is observed through its own repository; the model keeps the two
stores separate, which only strengthens the per-source statements. -/
structure TickState where
  nettiStore : List String
  toriStore : List String
  nettiBuf : List Listing
  toriBuf : List Listing
deriving Repr, DecidableEq

/-- Result of one tick: the notifications dispatched (with their
source tag), the full event trace in program order, and the final
state. -/
structure TickResult where
  notified : List (Source × Listing)
  trace : List Event
  final : TickState
deriving Repr, DecidableEq

/-- One execution of the `scrape_and_notify` task body (src/Bot.py
lines 66-103), in program order: scrape Nettikone (appending
`nettiNew` to its buffer), send one notification per buffered
Nettikone listing, `save_listings` (commit and clear); then the same
three steps for Tori. `nettiNew` and `toriNew` are the listings the
two scrape calls append, abstracting over the network responses. -/
def scrape_and_notify (st : TickState)
    (nettiNew toriNew : List Listing) : TickResult :=
  let nBuf := st.nettiBuf ++ nettiNew
  let nSaved := save_listings st.nettiStore nBuf
  let tBuf := st.toriBuf ++ toriNew
  let tSaved := save_listings st.toriStore tBuf
  ⟨nBuf.map (fun l => (Source.nettikone, l))
      ++ tBuf.map (fun l => (Source.tori, l)),
    Event.scrape Source.nettikone
      :: (nBuf.map (Event.notify Source.nettikone)
      ++ (Event.commit Source.nettikone
      :: Event.scrape Source.tori
      :: (tBuf.map (Event.notify Source.tori)
      ++ [Event.commit Source.tori]))),
    ⟨nSaved.1, tSaved.1, nSaved.2, tSaved.2⟩⟩

/-- Whether an event is a scraper's network call. -/
def Event.isScrape : Event → Bool
  | .scrape _ => true
  | _ => false

/-- True when no notification event in the trace is followed
(anywhere later) by a scrape event: the claim that scraping all
completes before notifying begins. -/
def noScrapeAfterNotify : List Event → Bool
  | [] => true
  | Event.notify _ _ :: rest => rest.all (fun e => !e.isScrape)
  | _ :: rest => noScrapeAfterNotify rest

/-- True when every notification's source has already been scraped
earlier in the trace; `seen` accumulates the sources scraped so far. -/
def notifyAfterOwnScrape : List Event → List Source → Bool
  | [], _ => true
  | Event.scrape s :: rest, seen => notifyAfterOwnScrape rest (s :: seen)
  | Event.notify s _ :: rest, seen =>
      seen.contains s && notifyAfterOwnScrape rest seen
  | Event.commit _ :: rest, seen => notifyAfterOwnScrape rest seen

/-- Formalisation of the SPEC's filtering rule, section 4.4 step (e):
keep, in source order, exactly the candidates that are valid, whose
link is not in the store, and whose link was not already kept earlier
in the same pass. Written from the spec's words for comparison with
the scrapers' code above. `kept` accumulates links kept so far. -/
def specFilterNewListings (store : List String) :
    List Listing → List String → List Listing
  | [], _ => []
  | l :: rest, kept =>
      if l.is_valid && !(store.contains l.link)
          && !(kept.contains l.link) then
        l :: specFilterNewListings store rest (l.link :: kept)
      else
        specFilterNewListings store rest kept

/-- A fragment in which every expected structural element is absent. -/
def brokenFragment : HtmlFragment := ⟨none, none, none, none, none⟩

/-- Concrete API item whose listing is invalid (empty model and
adUrl give an empty title and link). -/
def itemA : ApiItem := ⟨"", "", 1, none⟩

/-- Concrete API item whose listing is valid and unseen. -/
def itemB : ApiItem := ⟨"Valtra N104", "https://www.nettikone.com/ad/2", 2, none⟩

/-- The listing the json path builds from `itemA`. -/
def listingA : Listing := mkListingJson (listingDataOfItem itemA)

/-- The listing the json path builds from `itemB`. -/
def listingB : Listing := mkListingJson (listingDataOfItem itemB)

/-- Concrete listing card fragment used to exhibit duplicate links. -/
def fragDup : HtmlFragment := ⟨some "Truck", some "1000", none, some "/ad/1", none⟩

/-- The listing the html path builds from `fragDup`. -/
def dupListing : Listing := mkListingHtml fragDup

/-- Concrete listing used to instantiate tick-level statements. -/
def witListing : Listing :=
  ⟨"Tractor", "5000", "good", "https://example.invalid/1", none⟩

/-- Concrete make table used to instantiate the Helper statements. -/
def witTable : List Make := [⟨"Valtra", 87⟩, ⟨"Valmet", 88⟩]

/-- Concrete make-name list used to instantiate the Helper
statements. -/
def witNames : List String := ["VALTRA", "JohnDeere"]

/-!  Theorems.  -/

/-- Helper: a string starting with the non-empty base URL is never
empty. -/
theorem toriBase_append_isEmpty (s : String) :
    (toriBase ++ s).isEmpty = false := by
  rw [Bool.eq_false_iff]
  intro h
  have h2 := (String.isEmpty_iff _).mp h
  have h3 := congrArg String.length h2
  simp [String.length_append] at h3
  exact absurd h3.1 (by decide)

/-- Claim C3: the validity check accepts a Listing if and only if its
title or its link is a non-empty string. -/
theorem is_valid_iff_title_or_link_nonempty (l : Listing) :
    l.is_valid = true ↔ (l.title ≠ "" ∨ l.link ≠ "") := by
  simp [Listing.is_valid, Bool.eq_false_iff, String.isEmpty_iff]

/-- Claim C2, counterexample: an HTML fragment with all expected
structural elements absent yields the all-sentinel Listing, but the
validity check ACCEPTS it (the sentinel is a non-empty string), so it
is not filtered out before the dedup filter as the claim states. -/
theorem broken_fragment_all_sentinel_accepted :
    mkListingHtml brokenFragment =
      ⟨sentinel, sentinel, sentinel, sentinel, some sentinel⟩ ∧
    (mkListingHtml brokenFragment).is_valid = true :=
  ⟨rfl, rfl⟩

/-- Claim C2, amended: a structurally broken fragment yields an
all-sentinel Listing and is not treated as an error, but the validity
check accepts it rather than rejecting it — indeed every
html-extracted Listing passes the validity check, because an absent
link element yields the non-empty sentinel and a present one an
absolute URL under the non-empty base. -/
theorem html_listing_always_valid (frag : HtmlFragment) :
    (mkListingHtml frag).is_valid = true := by
  cases h : frag.link_element with
  | none =>
      have hs : (sentinel.isEmpty) = false := rfl
      simp [Listing.is_valid, mkListingHtml, h, hs]
  | some href =>
      simp [Listing.is_valid, mkListingHtml, h, toriBase_append_isEmpty]

/-- Claim C4: the HTML extractor is best-effort per field — each of
the five fields independently falls back to the sentinel when its
element is absent and is extracted when present (the link prefixed
with the base URL, the image kept as found); the embedding is a total
function, so no exception is raised. -/
theorem html_extractor_best_effort (frag : HtmlFragment) :
    (frag.title_element = none → (mkListingHtml frag).title = sentinel) ∧
    (∀ t, frag.title_element = some t → (mkListingHtml frag).title = t) ∧
    (frag.price_element = none → (mkListingHtml frag).price = sentinel) ∧
    (∀ p, frag.price_element = some p → (mkListingHtml frag).price = p) ∧
    (frag.details_element = none →
      (mkListingHtml frag).details = sentinel) ∧
    (∀ d, frag.details_element = some d →
      (mkListingHtml frag).details = d) ∧
    (frag.link_element = none → (mkListingHtml frag).link = sentinel) ∧
    (∀ h, frag.link_element = some h →
      (mkListingHtml frag).link = toriBase ++ h) ∧
    (frag.img_element = none →
      (mkListingHtml frag).img_url = some sentinel) ∧
    (∀ u, frag.img_element = some u →
      (mkListingHtml frag).img_url = some u) := by
  refine ⟨?_, ?_, ?_, ?_, ?_, ?_, ?_, ?_, ?_, ?_⟩ <;>
    first
    | (intro h; simp [mkListingHtml, h])
    | (intro v h; simp [mkListingHtml, h])

/-- Claim C4, witness: a fragment with title, details and image
absent but price and link present. -/
theorem html_extractor_best_effort_witness :
    (mkListingHtml ⟨none, some "1000", none, some "/x", none⟩).title
      = sentinel ∧
    (mkListingHtml ⟨none, some "1000", none, some "/x", none⟩).price
      = "1000" ∧
    (mkListingHtml ⟨none, some "1000", none, some "/x", none⟩).link
      = toriBase ++ "/x" ∧
    (mkListingHtml ⟨none, some "1000", none, some "/x", none⟩).img_url
      = some sentinel := by
  have h := html_extractor_best_effort ⟨none, some "1000", none, some "/x", none⟩
  exact ⟨h.1 rfl, h.2.2.2.1 "1000" rfl, h.2.2.2.2.2.2.2.1 "/x" rfl,
    h.2.2.2.2.2.2.2.2.1 rfl⟩

/-- Claim C5: the API path maps `model` to both title and details,
the stringified `id` to price, `adUrl` to link, and produces an
absent image whenever the item has no images array or an empty one;
the embedding is total, so that case raises nothing. -/
theorem api_item_mapping (item : ApiItem) :
    (mkListingJson (listingDataOfItem item)).title = item.model ∧
    (mkListingJson (listingDataOfItem item)).details = item.model ∧
    (mkListingJson (listingDataOfItem item)).price = toString item.id ∧
    (mkListingJson (listingDataOfItem item)).link = item.adUrl ∧
    ((item.images = none ∨ item.images = some []) →
      (mkListingJson (listingDataOfItem item)).img_url = none) := by
  refine ⟨rfl, rfl, rfl, ?_, ?_⟩
  · simp [mkListingJson, listingDataOfItem]
  · intro h
    rcases h with h | h <;> simp [mkListingJson, listingDataOfItem, h]

/-- Claim C5, witness: a concrete item without an images array. -/
theorem api_item_mapping_witness :
    (mkListingJson (listingDataOfItem ⟨"M", "https://a/1", 5, none⟩)).title
      = "M" ∧
    (mkListingJson (listingDataOfItem ⟨"M", "https://a/1", 5, none⟩)).img_url
      = none := by
  have h := api_item_mapping ⟨"M", "https://a/1", 5, none⟩
  exact ⟨h.1, h.2.2.2.2 (Or.inl rfl)⟩

/-- Claim C1: the code violates the filtering rule of spec section
4.4(e). Evaluated at a concrete failing input: the API scraper, on an
empty store and a 200 response with an invalid first item and a
valid, unseen last item, keeps BOTH listings — it tests only the loop
variable left over from the last iteration and then extends the
buffer with the whole batch — while the spec's filter keeps only the
valid one; and the HTML scraper, on an empty store and a page with
two identical cards, keeps the same link twice — it checks candidates
only against the store snapshot, never against listings kept earlier
in the same pass — while the spec's filter keeps it once. -/
theorem scrapers_violate_spec_filter :
    NettikoneScraper.scrape_listings [] []
        (HttpResult.ok 200 [itemA, itemB])
      = Except.ok [listingA, listingB] ∧
    listingA.is_valid = false ∧
    specFilterNewListings [] [listingA, listingB] [] = [listingB] ∧
    ToriScraper.scrape_url [] [] (HttpResult.ok 200 [fragDup, fragDup])
      = Except.ok [dupListing, dupListing] ∧
    specFilterNewListings [] [dupListing, dupListing] [] = [dupListing] := by
  refine ⟨rfl, rfl, rfl, rfl, rfl⟩

/-- Claim C6, counterexample: a connection failure or timeout in the
HTML scraper's `requests.get` is not caught anywhere in
`ToriScraper.scrape_url`, so the exception escapes the scraper,
contrary to the claim that every transport error is recovered
locally. -/
theorem tori_request_exception_escapes :
    ToriScraper.scrape_url [] [] HttpResult.err = Except.error () := rfl

/-- Claim C6, amended: a non-2xx status is recovered locally by both
scrapers — logged, zero contribution from that request, no exception
— and the API scraper also catches connection failures and timeouts;
only the HTML scraper lets those escape. -/
theorem transport_errors_recovered (store : List String)
    (buf : List Listing) (status : Nat) (frags : List HtmlFragment)
    (items : List ApiItem) (h : status ≠ 200) :
    ToriScraper.scrape_url store buf (HttpResult.ok status frags)
      = Except.ok buf ∧
    NettikoneScraper.scrape_listings store buf HttpResult.err
      = Except.ok buf ∧
    NettikoneScraper.scrape_listings store buf (HttpResult.ok status items)
      = Except.ok buf := by
  have hb : (status == 200) = false := by simp [h]
  refine ⟨?_, rfl, ?_⟩ <;>
    simp [ToriScraper.scrape_url, NettikoneScraper.scrape_listings, hb]

/-- Claim C6, witness for the amended statement: an HTTP 500 on both
sources contributes nothing and raises nothing. -/
theorem transport_errors_recovered_witness :
    ToriScraper.scrape_url [] [] (HttpResult.ok 500 [])
      = Except.ok [] ∧
    NettikoneScraper.scrape_listings [] [] HttpResult.err
      = Except.ok [] ∧
    NettikoneScraper.scrape_listings [] [] (HttpResult.ok 500 [])
      = Except.ok [] :=
  transport_errors_recovered [] [] 500 [] [] (by decide)

/-- Claim C7: after one full execution of the tick body, every
listing that was notified is present (by link) in its source's
committed store, and both scrapers' new-listings buffers are empty. -/
theorem tick_commits_notified_and_clears (st : TickState)
    (nettiNew toriNew : List Listing) :
    (∀ p ∈ (scrape_and_notify st nettiNew toriNew).notified,
      p.2.link ∈ (match p.1 with
        | Source.nettikone =>
            (scrape_and_notify st nettiNew toriNew).final.nettiStore
        | Source.tori =>
            (scrape_and_notify st nettiNew toriNew).final.toriStore)) ∧
    (scrape_and_notify st nettiNew toriNew).final.nettiBuf = [] ∧
    (scrape_and_notify st nettiNew toriNew).final.toriBuf = [] := by
  refine ⟨?_, rfl, rfl⟩
  intro p hp
  simp only [scrape_and_notify, List.mem_append, List.mem_map] at hp
  rcases hp with ⟨l, hl, rfl⟩ | ⟨l, hl, rfl⟩ <;>
    simp only [scrape_and_notify, save_listings] <;>
    exact List.mem_append_right _
      (List.mem_map_of_mem _ (List.mem_append.mpr hl))

/-- Claim C7, witness: a tick from the empty state with one new
Nettikone listing commits its link and clears the buffers. -/
theorem tick_commits_notified_and_clears_witness :
    witListing.link ∈
      (scrape_and_notify ⟨[], [], [], []⟩ [witListing] []).final.nettiStore ∧
    (scrape_and_notify ⟨[], [], [], []⟩ [witListing] []).final.nettiBuf
      = [] ∧
    (scrape_and_notify ⟨[], [], [], []⟩ [witListing] []).final.toriBuf
      = [] := by
  have h := tick_commits_notified_and_clears ⟨[], [], [], []⟩ [witListing] []
  exact ⟨h.1 (Source.nettikone, witListing) (by decide), h.2.1, h.2.2⟩

/-- Claim C8, counterexample: in the tick body's program order, the
Nettikone notifications are sent before the Tori scraper's network
call is issued: with one new Nettikone listing, the trace contains a
notify event followed later by a scrape event, refuting the claim
that all scraping completes before any notification. -/
theorem notify_precedes_tori_scrape :
    noScrapeAfterNotify
      (scrape_and_notify ⟨[], [], [], []⟩ [witListing] []).trace = false :=
  rfl

/-- Helper: notification events for an already-scraped source pass
through the `notifyAfterOwnScrape` scan. -/
theorem notifyAfterOwnScrape_map_notify (s : Source) (l : List Listing)
    (rest : List Event) (seen : List Source)
    (h : seen.contains s = true) :
    notifyAfterOwnScrape (l.map (Event.notify s) ++ rest) seen =
      notifyAfterOwnScrape rest seen := by
  induction l with
  | nil => rfl
  | cons x xs ih =>
      simp only [List.map_cons, List.cons_append, notifyAfterOwnScrape,
        h, Bool.true_and]
      exact ih

/-- Claim C8, amended: the tick body processes the sources strictly
one after the other — each source's own scrape network call completes
before any of its notifications is dispatched, but the first source's
notifications and commit happen before the second source's scrape. -/
theorem notifications_follow_own_scrape (st : TickState)
    (nettiNew toriNew : List Listing) :
    notifyAfterOwnScrape
      (scrape_and_notify st nettiNew toriNew).trace [] = true := by
  simp only [scrape_and_notify, notifyAfterOwnScrape]
  rw [notifyAfterOwnScrape_map_notify _ _ _ _ (by decide)]
  simp only [notifyAfterOwnScrape]
  rw [notifyAfterOwnScrape_map_notify _ _ _ _ (by decide)]
  rfl

/-- Claim C9: token acquisition is total — it returns the access
token when the exchange succeeds and the body carries one, and
Python `None` both when the request raises and when the decoded body
lacks an access token (`raise_for_status` turns a 4xx/5xx into a
caught exception); and with the resulting absent token the API
source's request is rejected with a non-200 status, which contributes
zero listings without any exception escaping. -/
theorem token_acquisition_total (resp : HttpResult (Option String))
    (store : List String) (buf : List Listing) (status : Nat)
    (items : List ApiItem) (hs : status ≠ 200) :
    (resp = HttpResult.err → get_nettikone_api_token resp = none) ∧
    (∀ s, resp = HttpResult.ok s none →
      get_nettikone_api_token resp = none) ∧
    (∀ s tok, resp = HttpResult.ok s (some tok) → ¬(400 ≤ s ∧ s < 600) →
      get_nettikone_api_token resp = some tok) ∧
    NettikoneScraper.scrape_listings store buf (HttpResult.ok status items)
      = Except.ok buf := by
  have hb : (status == 200) = false := by simp [hs]
  refine ⟨?_, ?_, ?_, ?_⟩
  · intro h; subst h; rfl
  · intro s h; subst h
    simp [get_nettikone_api_token]
  · intro s tok h hrange; subst h
    simp [get_nettikone_api_token, hrange]
  · simp [NettikoneScraper.scrape_listings, hb]

/-- Claim C9, witness: a failed token request yields `None`, a 200
body with a token yields the token, and a 401 on the API search
contributes nothing. -/
theorem token_acquisition_total_witness :
    get_nettikone_api_token HttpResult.err = none ∧
    get_nettikone_api_token (HttpResult.ok 200 (some "tok")) = some "tok" ∧
    NettikoneScraper.scrape_listings [] [] (HttpResult.ok 401 [])
      = Except.ok [] := by
  have h := token_acquisition_total (HttpResult.ok 200 (some "tok"))
    [] [] 401 [] (by decide)
  have h2 := token_acquisition_total HttpResult.err [] [] 401 [] (by decide)
  exact ⟨h2.1 rfl, h.2.2.1 200 "tok" rfl (by decide), h.2.2.2⟩

/-- Helper: `get_make_id` returns `none` exactly when no table entry
matches the name case-insensitively. -/
theorem get_make_id_eq_none_iff (table : List Make) (name : String) :
    get_make_id table name = none ↔
      ∀ m ∈ table, lower m.name ≠ lower name := by
  induction table with
  | nil => simp [get_make_id]
  | cons m rest ih =>
      by_cases h : lower m.name = lower name
      · simp [get_make_id, h]
      · simp [get_make_id, h, ih]

/-- Helper: when `get_make_id` returns an id, it is the id of the
first matching table entry. -/
theorem get_make_id_eq_some (table : List Make) (name : String)
    (k : Int) (h : get_make_id table name = some k) :
    ∃ j, ∃ hj : j < table.length,
      lower (table.get ⟨j, hj⟩).name = lower name ∧
      (table.get ⟨j, hj⟩).id = k ∧
      ∀ j2, ∀ hj2 : j2 < table.length, j2 < j →
        lower (table.get ⟨j2, hj2⟩).name ≠ lower name := by
  induction table with
  | nil => simp [get_make_id] at h
  | cons m rest ih =>
      by_cases hm : lower m.name = lower name
      · simp only [get_make_id, if_pos hm, Option.some.injEq] at h
        exact ⟨0, Nat.succ_pos _, hm, h,
          fun j2 hj2 hlt => absurd hlt (Nat.not_lt_zero j2)⟩
      · simp only [get_make_id, if_neg hm] at h
        obtain ⟨j, hj, h1, h2, h3⟩ := ih h
        refine ⟨j + 1, Nat.succ_lt_succ hj, h1, h2, ?_⟩
        intro j2 hj2 hlt
        match j2, hj2 with
        | 0, _ => exact hm
        | j2 + 1, hj2 =>
            exact h3 j2 (Nat.lt_of_succ_lt_succ hj2)
              (Nat.lt_of_succ_lt_succ hlt)

/-- Claim C10: `get_make_ids` preserves the length and order of its
input; at each position it holds the id of the first table entry
matching that name case-insensitively, and `none` when no entry
matches — unknown names map to `none` rather than being dropped. -/
theorem get_make_ids_first_match (table : List Make)
    (names : List String) :
    (get_make_ids table names).length = names.length ∧
    ∀ i, ∀ hi : i < names.length,
      ∀ hr : i < (get_make_ids table names).length,
      ((get_make_ids table names).get ⟨i, hr⟩ = none ↔
        ∀ m ∈ table, lower m.name ≠ lower (names.get ⟨i, hi⟩)) ∧
      ∀ k, (get_make_ids table names).get ⟨i, hr⟩ = some k →
        ∃ j, ∃ hj : j < table.length,
          lower (table.get ⟨j, hj⟩).name
            = lower (names.get ⟨i, hi⟩) ∧
          (table.get ⟨j, hj⟩).id = k ∧
          ∀ j2, ∀ hj2 : j2 < table.length, j2 < j →
            lower (table.get ⟨j2, hj2⟩).name
              ≠ lower (names.get ⟨i, hi⟩) := by
  refine ⟨List.length_map _ _, ?_⟩
  intro i hi hr
  have hget : (get_make_ids table names).get ⟨i, hr⟩ =
      get_make_id table (names.get ⟨i, hi⟩) := by
    simp [get_make_ids, List.getElem_map]
  rw [hget]
  exact ⟨get_make_id_eq_none_iff table _,
    fun k hk => get_make_id_eq_some table _ k hk⟩

/-- Claim C10, witness: on a concrete table and name list, the result
has the input's length, position 0 resolves "VALTRA"
case-insensitively to the first matching id, and the unknown name at
position 1 maps to `none`. -/
theorem get_make_ids_first_match_witness :
    (get_make_ids witTable witNames).length = witNames.length ∧
    ((get_make_ids witTable witNames).get ⟨1, by decide⟩ = none ↔
      ∀ m ∈ witTable,
        lower m.name ≠ lower (witNames.get ⟨1, by decide⟩)) ∧
    (get_make_ids witTable witNames).get ⟨0, by decide⟩ = some 87 := by
  have h := get_make_ids_first_match witTable witNames
  exact ⟨h.1, (h.2 1 (by decide) (by decide)).1, by decide⟩

end NT
